import Mathlib

/-!
Shallow embedding of the non-profit QR code generator client
(src/components/UserForm.tsx, src/components/LogoUpload.tsx,
src/components/QRCodeGenerator.tsx, src/lib/supabase.ts) and proofs about
its form validation, persistence helpers, logo intake, PDF placement and
AI-generation guard.

Strings are modelled as Lean `String`; JS `undefined`/`null` for optional
fields as `Option`; the remote store as an explicit record of table
contents threaded through the persistence helpers; JS numbers in the PDF
placement as rationals (the constants involved are exact dyadic values).
-/

namespace QRGen

/-! ### UserForm.tsx: EIN live formatting and validation -/

/-- The `formatEIN` helper of UserForm.tsx: strip all non-digits
(the regex `\D` complements `[0-9]`, which is `Char.isDigit`); with at most
two digits return them bare, otherwise return the first two digits, a
hyphen, and the next up-to-seven digits. -/
def formatEIN (value : String) : String :=
  let digits := value.data.filter (fun c => c.isDigit)
  if digits.length ≤ 2 then String.mk digits
  else String.mk (digits.take 2) ++ "-" ++ String.mk ((digits.drop 2).take 7)

/-- Matching of the anchored EIN regex of UserForm.tsx (two digits, a
hyphen, seven digits): a direct transliteration of the fixed-width
pattern. -/
def einRegexMatch (s : String) : Bool :=
  match s.data with
  | [a, b, h, c1, c2, c3, c4, c5, c6, c7] =>
      a.isDigit && b.isDigit && h == '-' && c1.isDigit && c2.isDigit &&
      c3.isDigit && c4.isDigit && c5.isDigit && c6.isDigit && c7.isDigit
  | _ => false

/-- Character class `[a-zA-Z0-9._%+-]` of the email regex's local part. -/
def isLocalChar (c : Char) : Bool :=
  c.isAlpha || c.isDigit || c == '.' || c == '_' || c == '%' || c == '+' || c == '-'

/-- Character class `[a-zA-Z0-9.-]` of the email regex's domain part. -/
def isDomainChar (c : Char) : Bool :=
  c.isAlpha || c.isDigit || c == '.' || c == '-'

/-- Matching of the anchored email regex of UserForm.tsx: the string
decomposes as a nonempty local part over its class, an at sign at index
`i`, a nonempty domain part over its class, a dot at index `j`, and at
least two letters running to the end of the string. -/
def matchesEmailRegex (s : String) : Bool :=
  let cs := s.data
  let n := cs.length
  (List.range n).any (fun i =>
    (List.range n).any (fun j =>
      decide (0 < i) && decide (i + 1 < j) && decide (j + 2 < n) &&
      cs[i]? == some '@' && cs[j]? == some '.' &&
      (cs.take i).all isLocalChar &&
      ((cs.drop (i + 1)).take (j - (i + 1))).all isDomainChar &&
      (cs.drop (j + 1)).all (fun c => c.isAlpha)))

/-- The `validateEmail` handler of UserForm.tsx: acceptance flag together
with the message stored in `emailError`. -/
def validateEmail (email : String) : Bool × String :=
  if email = "" then (false, "Email is required")
  else if matchesEmailRegex email = false then
    (false, "Please enter a valid email address")
  else (true, "")

/-- The `validateEIN` handler of UserForm.tsx: an empty EIN is accepted
(the field is optional), otherwise the strict pattern must match. -/
def validateEIN (ein : String) : Bool × String :=
  if ein = "" then (true, "")
  else if einRegexMatch ein = false then
    (false, "EIN must be in format: XX-XXXXXXX")
  else (true, "")

/-- Form state held by UserForm.tsx. -/
structure FormData where
  name : String
  email : String
  organization : String
  ein : String
  deriving DecidableEq

/-- The `handleChange` handler of UserForm.tsx: the `ein` field stores the
live-formatted value, the other known fields store the raw value. -/
def handleChange (fd : FormData) (field value : String) : FormData :=
  if field = "ein" then { fd with ein := formatEIN value }
  else if field = "name" then { fd with name := value }
  else if field = "email" then { fd with email := value }
  else if field = "organization" then { fd with organization := value }
  else fd

/-- Payload forwarded to the parent `onSubmit`; an empty EIN is normalized
to `none` (JS `undefined`). -/
structure SubmitPayload where
  name : String
  email : String
  organization : String
  ein : Option String
  deriving DecidableEq

/-- The `handleSubmit` handler of UserForm.tsx: `none` when validation
blocks the submission (the parent `onSubmit` is not invoked, so no network
call occurs), otherwise the forwarded payload. -/
def handleSubmit (fd : FormData) : Option SubmitPayload :=
  if (validateEmail fd.email).1 = false || (validateEIN fd.ein).1 = false then none
  else some { name := fd.name, email := fd.email, organization := fd.organization,
              ein := if fd.ein = "" then none else some fd.ein }

/-- Shape of every string `formatEIN` can produce: a run of at most two
digits, or two digits, a hyphen, and one to seven digits. -/
def einPartialShape (s : String) : Bool :=
  (s.data.all (fun c => c.isDigit) && decide (s.data.length ≤ 2)) ||
  (decide (4 ≤ s.data.length) && decide (s.data.length ≤ 10) &&
   (s.data.take 2).all (fun c => c.isDigit) && s.data[2]? == some '-' &&
   (s.data.drop 3).all (fun c => c.isDigit))

/-! ### supabase.ts: persistence helpers over the remote store

The store is modelled by the contents of the `users` and `visits` tables
together with the id the store would assign to the next inserted user row.
The claims about `saveUser` concern its behaviour when the lookup, update
and insert requests succeed, so those store operations are modelled as
total state transformers; `updateVisit` is additionally modelled at the
outcome level (below) for its error-swallowing contract. -/

/-- `APP_IDS.QR_CODE_GENERATOR` of supabase.ts. -/
def APP_ID : String := "qr-gen-v1"

/-- A row of the `users` table (the `User` interface of supabase.ts). -/
structure UserRow where
  id : Nat
  email : String
  name : String
  organization : Option String
  ein : Option String
  app_ids : List String
  deriving DecidableEq

/-- A row of the `visits` table (the `Visit` interface of supabase.ts). -/
structure VisitRow where
  user_id : Nat
  app_id : String
  visit_count : Nat
  last_visit : String
  deriving DecidableEq

/-- Remote store state consumed by `saveUser`. -/
structure DB where
  users : List UserRow
  nextId : Nat
  visits : List VisitRow
  deriving DecidableEq

/-- Argument of `saveUser` (the `Omit<User, ...>` payload); empty strings
stand for the blank/omitted optional fields, as in the form. -/
structure SaveInput where
  email : String
  name : String
  organization : String
  ein : String
  deriving DecidableEq

/-- Result of `saveUser`: the returned row, the store state afterwards, and
whether the visit upsert was reached. -/
structure SaveResult where
  user : UserRow
  db : DB
  visitAttempted : Bool
  deriving DecidableEq

/-- The visits upsert issued by `updateVisit` (supabase.ts), keyed on
`user_id,app_id` (the `onConflict` columns) with payload
`visit_count: 1, last_visit: now`: the conflicting row is overwritten when
present, a new row inserted otherwise. (The `visit_count := COALESCE(...)`
alias in the trailing `.select` is not a valid column selection and has no
effect on the stored row.) -/
def upsertVisit (userId : Nat) (appId now : String) (visits : List VisitRow) :
    List VisitRow :=
  if visits.any (fun v => v.user_id == userId && v.app_id == appId) then
    visits.map (fun v =>
      if v.user_id == userId && v.app_id == appId then
        { v with visit_count := 1, last_visit := now }
      else v)
  else visits ++ [{ user_id := userId, app_id := appId, visit_count := 1,
                    last_visit := now }]

/-- `saveUser` of supabase.ts on the success path of its store requests.
`cleanUserData` turns empty optional fields into `none` (JS `undefined`);
the lookup is an exact-email match; an existing row is updated only when
the generator app id is absent, and then only the non-empty incoming
fields are included in the update object; a fresh row is inserted
otherwise, seeded with the app id, followed by the best-effort
`updateVisit` for the new row. -/
def saveUser (input : SaveInput) (db : DB) (now : String) : SaveResult :=
  let cleanOrg : Option String :=
    if input.organization = "" then none else some input.organization
  let cleanEin : Option String :=
    if input.ein = "" then none else some input.ein
  match db.users.find? (fun r => r.email == input.email) with
  | some existing =>
      if APP_ID ∈ existing.app_ids then
        { user := existing, db := db, visitAttempted := false }
      else
        let updated : UserRow :=
          { existing with
            app_ids := existing.app_ids ++ [APP_ID]
            name := if input.name = "" then existing.name else input.name
            organization :=
              if input.organization = "" then existing.organization
              else some input.organization
            ein := if input.ein = "" then existing.ein else some input.ein }
        { user := updated
          db := { db with users := db.users.map (fun r =>
                    if r.id == existing.id then updated else r) }
          visitAttempted := false }
  | none =>
      let newUser : UserRow :=
        { id := db.nextId, email := input.email, name := input.name,
          organization := cleanOrg, ein := cleanEin, app_ids := [APP_ID] }
      { user := newUser
        db := { users := db.users ++ [newUser]
                nextId := db.nextId + 1
                visits := upsertVisit newUser.id APP_ID now db.visits }
        visitAttempted := true }

/-- A store/JS error value. -/
structure JsError where
  message : String
  deriving DecidableEq

/-- `updateVisit` of supabase.ts at the outcome level: `store` is the
outcome of the awaited upsert request (`Except.error` covers both a
rejected promise and a non-null `error` field, which the body rethrows);
the result is `Except.error` exactly when the call raises. Missing (empty,
hence JS-falsy) parameters short-circuit to the null sentinel before the
store is touched; the catch-all converts every thrown error to a null
return. -/
def updateVisit (userId appId : String) (store : Except JsError VisitRow) :
    Except JsError (Option VisitRow) :=
  if userId = "" || appId = "" then Except.ok none
  else
    match store with
    | Except.ok d => Except.ok (some d)
    | Except.error _ => Except.ok none

/-! ### LogoUpload.tsx: logo intake validation -/

/-- The facts about an uploaded file that the intake consults: MIME type,
byte size, natural dimensions, and whether the browser can decode it (the
`Image` `onload`/`onerror` split). -/
structure ImgFile where
  type : String
  size : Nat
  width : Nat
  height : Nat
  decodeOk : Bool
  deriving DecidableEq

/-- Outcome of `processImage`: either the user-visible error message set by
a rejection (the `onLogoChange` callback is not invoked), or acceptance
handing the compressed data-URL to the callback. -/
inductive ProcessOutcome where
  | rejected (msg : String)
  | accepted (dataUrl : String)
  deriving DecidableEq

/-- `validateImage` of LogoUpload.tsx: a file the browser cannot decode is
invalid; otherwise both natural dimensions must be at least 100 and at
most 2000. Returns the resolved flag with the error message set. -/
def validateImage (f : ImgFile) : Bool × String :=
  if f.decodeOk = false then (false, "Invalid image file")
  else if f.width < 100 || f.height < 100 then
    (false, "Image must be at least 100x100 pixels")
  else if 2000 < f.width || 2000 < f.height then
    (false, "Image must be no larger than 2000x2000 pixels")
  else (true, "")

/-- `processImage` of LogoUpload.tsx: the MIME type must start with the
six characters of the image prefix, the size must not exceed 5 MB, and
`validateImage` must accept; then the file is compressed and read back,
and the resulting data-URL (`dataUrl` here) reaches the callback. -/
def processImage (f : ImgFile) (dataUrl : String) : ProcessOutcome :=
  if (("image/").data.isPrefixOf f.type.data) = false then
    ProcessOutcome.rejected ("Please upload an image file")
  else if 5 * 1024 * 1024 < f.size then
    ProcessOutcome.rejected ("File size must be less than 5MB")
  else
    match validateImage f with
    | (false, msg) => ProcessOutcome.rejected msg
    | (true, _) => ProcessOutcome.accepted dataUrl

/-- Argument passed to `onLogoChange`: `some` data-URL on acceptance,
nothing otherwise (a rejection never invokes the callback). -/
def logoCallback : ProcessOutcome → Option String
  | ProcessOutcome.accepted u => some u
  | ProcessOutcome.rejected _ => none

/-! ### QRCodeGenerator.tsx: PDF placement and AI-generation guard -/

/-- Placement of the rasterized image on the PDF page, in inches. -/
structure PdfPlacement where
  x : ℚ
  y : ℚ
  w : ℚ
  h : ℚ
  deriving DecidableEq

/-- The placement computation of `downloadImage` for the PDF format
(QRCodeGenerator.tsx): US-Letter page, half-inch margins, width capped to
the margin-bounded box, height from the aspect ratio, capped to the box
height with width rescaled when it overflows, then centered. JS numbers
are modelled as rationals. -/
def pdfPlacement (imgWidth imgHeight : ℚ) : PdfPlacement :=
  let pageWidth : ℚ := 8.5
  let pageHeight : ℚ := 11
  let margin : ℚ := 0.5
  let maxWidth := pageWidth - 2 * margin
  let maxHeight := pageHeight - 2 * margin
  let aspectRatio := imgWidth / imgHeight
  let width := maxWidth
  let height := width / aspectRatio
  let width2 := if maxHeight < height then maxHeight * aspectRatio else width
  let height2 := if maxHeight < height then maxHeight else height
  { x := (pageWidth - width2) / 2, y := (pageHeight - height2) / 2,
    w := width2, h := height2 }

/-- Which field `generateAIText` drafts. -/
inductive GenField where
  | description
  | purpose
  deriving DecidableEq

/-- Outcome of the completion request: the generated text, or a provider
error with an optional message. -/
inductive AIOutcome where
  | ok (text : String)
  | err (msg : Option String)
  deriving DecidableEq

/-- Generator-view state touched by `generateAIText`. -/
structure GenState where
  isGenerating : Bool
  error : String
  orgDescription : String
  urlPurpose : String
  deriving DecidableEq

/-- `generateAIText` of QRCodeGenerator.tsx: the next state together with
whether a completion request was issued. The leading guard returns
unchanged while a request is in flight; a missing API key only sets the
error; otherwise the request is issued and its outcome folded into the
state, the in-flight flag cleared again in the `finally`. -/
def generateAIText (hasKey : Bool) (field : GenField) (outcome : AIOutcome)
    (s : GenState) : GenState × Bool :=
  if s.isGenerating then (s, false)
  else if hasKey = false then
    ({ s with error := "OpenAI API key is not configured. Please add your API key to the environment variables." }, false)
  else
    let s1 := { s with error := "", isGenerating := true }
    let s2 :=
      match outcome with
      | AIOutcome.ok text =>
          match field with
          | GenField.description => { s1 with orgDescription := text }
          | GenField.purpose => { s1 with urlPurpose := text }
      | AIOutcome.err m =>
          { s1 with error := m.getD ("Error generating AI text. Please try again.") }
    ({ s2 with isGenerating := false }, true)

/-! ### Concrete store states and inputs used by the closed theorems -/

/-- An existing user row that already activated the generator app. -/
def rowAmy : UserRow :=
  { id := 1, email := "amy@example.org", name := "Amy", organization := none,
    ein := none, app_ids := [APP_ID] }

/-- Store holding only `rowAmy`. -/
def dbAmy : DB := { users := [rowAmy], nextId := 2, visits := [] }

/-- Re-submission of `rowAmy`'s email with blank optional fields. -/
def inputAmy : SaveInput :=
  { email := "amy@example.org", name := "Amy", organization := "", ein := "" }

/-- An existing user row (generator app already present) with no
organization on file. -/
def rowBob : UserRow :=
  { id := 1, email := "bob@example.org", name := "Old Name",
    organization := none, ein := none, app_ids := [APP_ID] }

/-- Store holding only `rowBob`. -/
def dbBob : DB := { users := [rowBob], nextId := 2, visits := [] }

/-- Re-submission of `rowBob`'s email with a non-empty name and
organization. -/
def inputBob : SaveInput :=
  { email := "bob@example.org", name := "New Name", organization := "New Org",
    ein := "" }

/-- An existing user row that has not activated the generator app. -/
def rowCal : UserRow :=
  { id := 3, email := "cal@example.org", name := "Cal",
    organization := some ("Cal Org"), ein := none, app_ids := ["other-app"] }

/-- Store holding only `rowCal`. -/
def dbCal : DB := { users := [rowCal], nextId := 4, visits := [] }

/-- Re-submission of `rowCal`'s email with a new name, blank organization
and a new EIN. -/
def inputCal : SaveInput :=
  { email := "cal@example.org", name := "Cal Updated", organization := "",
    ein := "12-3456789" }

/-- A fresh submission whose email matches no row of `dbAmy`. -/
def inputDana : SaveInput :=
  { email := "dana@example.org", name := "Dana", organization := "", ein := "" }

/-- A sample visit timestamp. -/
def tNow : String := "2026-01-01T00:00:00.000Z"

end QRGen

namespace QRGen

/-! ### Helper lemmas about `formatEIN` -/

/-- Rendering step of `formatEIN` expressed on the digit list. -/
def einRender (d : List Char) : List Char :=
  if d.length ≤ 2 then d else d.take 2 ++ '-' :: (d.drop 2).take 7

theorem formatEIN_data (v : String) :
    (formatEIN v).data = einRender (v.data.filter (fun c => c.isDigit)) := by
  unfold formatEIN einRender
  by_cases h : (v.data.filter (fun c => c.isDigit)).length ≤ 2 <;>
    simp [h, String.data_append]

theorem einRender_filter (d : List Char) (hall : ∀ c ∈ d, c.isDigit = true) :
    (einRender d).filter (fun c => c.isDigit) = d.take 9 := by
  match d with
  | [] => simp [einRender]
  | [a] => simp [einRender, hall a (by simp)]
  | [a, b] => simp [einRender, hall a (by simp), hall b (by simp)]
  | a :: b :: c :: t =>
    have ha := hall a (by simp)
    have hb := hall b (by simp)
    have ht : ∀ x ∈ (c :: t).take 7, x.isDigit = true := fun x hx =>
      hall x (List.mem_cons_of_mem a (List.mem_cons_of_mem b
        (List.take_subset 7 (c :: t) hx)))
    have hdash : ('-').isDigit = false := rfl
    have hlen : ¬ (a :: b :: c :: t).length ≤ 2 := by simp
    have htake : (a :: b :: c :: t).take 9 = a :: b :: (c :: t).take 7 := rfl
    have htak2 : (a :: b :: c :: t).take 2 = [a, b] := rfl
    have hdrop : (a :: b :: c :: t).drop 2 = c :: t := rfl
    rw [einRender, if_neg hlen, hdrop, htake, htak2]
    generalize (c :: t).take 7 = u at ht ⊢
    simp [List.filter_cons, ha, hb, hdash, List.filter_eq_self.mpr ht]

theorem formatEIN_digits (v : String) :
    (formatEIN v).data.filter (fun c => c.isDigit) =
      (v.data.filter (fun c => c.isDigit)).take 9 := by
  rw [formatEIN_data]
  exact einRender_filter _ (fun c hc => List.of_mem_filter hc)

theorem einRender_take9 (d : List Char) : einRender (d.take 9) = einRender d := by
  unfold einRender
  by_cases h : d.length ≤ 2
  · rw [List.take_of_length_le (le_trans h (by norm_num))]
  · have h9 : ¬ (d.take 9).length ≤ 2 := by
      rw [List.length_take]; omega
    rw [if_neg h9, if_neg h, List.take_take, List.drop_take, List.take_take]
    norm_num

theorem formatEIN_idem (v : String) : formatEIN (formatEIN v) = formatEIN v := by
  have h1 : (formatEIN (formatEIN v)).data = (formatEIN v).data := by
    rw [formatEIN_data (formatEIN v), formatEIN_digits v, einRender_take9,
      ← formatEIN_data v]
  exact String.ext h1

theorem formatEIN_shape (v : String) : einPartialShape (formatEIN v) = true := by
  have hall : ∀ c ∈ v.data.filter (fun c => c.isDigit), c.isDigit = true :=
    fun c hc => List.of_mem_filter hc
  unfold einPartialShape
  rw [formatEIN_data]
  generalize v.data.filter (fun c => c.isDigit) = d at hall
  match d with
  | [] => simp [einRender]
  | [a] => simp [einRender, hall a (by simp)]
  | [a, b] => simp [einRender, hall a (by simp), hall b (by simp)]
  | a :: b :: c :: t =>
    have ha := hall a (by simp)
    have hb := hall b (by simp)
    have ht : ∀ x ∈ (c :: t).take 7, x.isDigit = true := fun x hx =>
      hall x (List.mem_cons_of_mem a (List.mem_cons_of_mem b
        (List.take_subset 7 (c :: t) hx)))
    have hlen : ¬ (a :: b :: c :: t).length ≤ 2 := by simp
    have htak2 : (a :: b :: c :: t).take 2 = [a, b] := rfl
    have hdrop : (a :: b :: c :: t).drop 2 = c :: t := rfl
    rw [einRender, if_neg hlen, htak2, hdrop]
    have hul : ((c :: t).take 7).length ≤ 7 := by
      rw [List.length_take]; omega
    have hul1 : 1 ≤ ((c :: t).take 7).length := by
      rw [List.length_take]; simp
    generalize (c :: t).take 7 = u at ht hul hul1
    simp [ha, hb, List.all_eq_true, hul, hul1]
    exact ht

theorem formatEIN_length (v : String) : (formatEIN v).length ≤ 10 := by
  have h : (formatEIN v).length = (formatEIN v).data.length := rfl
  rw [h, formatEIN_data]
  unfold einRender
  split
  · omega
  · simp [List.length_take]
    omega

end QRGen

namespace QRGen

/-! ### Further helper lemmas -/

theorem validateImage_bad_dims (f : ImgFile)
    (h : f.width < 100 ∨ f.height < 100 ∨ 2000 < f.width ∨ 2000 < f.height) :
    (validateImage f).1 = false := by
  unfold validateImage
  split_ifs with h1 h2 h3 <;> try rfl
  simp at h2 h3
  omega

theorem upsertVisit_any_key (userId : Nat) (appId now : String)
    (vs : List VisitRow) :
    ((upsertVisit userId appId now vs).any
      (fun v => v.user_id == userId && v.app_id == appId)) = true := by
  unfold upsertVisit
  by_cases h : vs.any (fun v => v.user_id == userId && v.app_id == appId) = true
  · rw [if_pos h, List.any_map]
    rw [List.any_eq_true] at h ⊢
    obtain ⟨v, hv, hp⟩ := h
    refine ⟨v, hv, ?_⟩
    simp only [Function.comp_apply]
    rw [if_pos hp]
    exact hp
  · rw [if_neg h]
    simp [List.any_append]

/-! ### The claims -/

/-- Claim C10: the EIN live-formatting function is idempotent and bounds
its output — applying it twice equals applying it once, the result holds
at most 9 digits and at most 10 characters, and exactly the input's first
nine digits survive (digits beyond the ninth are discarded). -/
theorem formatEIN_idempotent_and_bounded (v : String) :
    formatEIN (formatEIN v) = formatEIN v ∧
    ((formatEIN v).data.filter (fun c => c.isDigit)).length ≤ 9 ∧
    (formatEIN v).length ≤ 10 ∧
    (formatEIN v).data.filter (fun c => c.isDigit) =
      (v.data.filter (fun c => c.isDigit)).take 9 := by
  refine ⟨formatEIN_idem v, ?_, formatEIN_length v, formatEIN_digits v⟩
  rw [formatEIN_digits, List.length_take]
  omega

/-- Claim C2 counterexample: typing a single digit into the EIN field
stores the one-character string, which is neither the empty string nor of
the NN-NNNNNNN shape. -/
theorem handleChange_ein_single_digit :
    (handleChange ⟨"", "", "", ""⟩ ("ein") ("1")).ein = "1" ∧
    ("1" : String) ≠ "" ∧ einRegexMatch ("1") = false := by
  refine ⟨rfl, by decide, rfl⟩

/-- Claim C2 (amended): the EIN change handler stores exactly the
live-formatted value, and every stored value is either a run of at most two
digits (the empty string included) or two digits, a hyphen, and one to
seven digits — never any other shape. -/
theorem handleChange_ein_stores_partial_shape (fd : FormData) (v : String) :
    (handleChange fd ("ein") v).ein = formatEIN v ∧
    einPartialShape (formatEIN v) = true := by
  refine ⟨?_, formatEIN_shape v⟩
  unfold handleChange
  simp

/-- Claim C6: for every email the address regex rejects, the submit handler
returns without forwarding a payload to the parent `onSubmit`, so no
network call occurs. -/
theorem handleSubmit_blocked_on_invalid_email (fd : FormData)
    (h : matchesEmailRegex fd.email = false) : handleSubmit fd = none := by
  unfold handleSubmit validateEmail
  by_cases he : fd.email = "" <;> simp [he, h]

/-- Claim C6 witness: a concrete non-address string is rejected and blocks
submission. -/
theorem handleSubmit_blocked_on_invalid_email_witness :
    matchesEmailRegex ("not-an-email") = false ∧
    handleSubmit ⟨"A", "not-an-email", "", ""⟩ = none :=
  ⟨by decide,
   handleSubmit_blocked_on_invalid_email ⟨"A", "not-an-email", "", ""⟩ (by decide)⟩

/-- Claim C9: while a generation request is in flight, invoking
`generateAIText` for either field is a no-op — the state is unchanged and
no completion request is issued — so at most one request is in flight at a
time. -/
theorem generateAIText_noop_while_generating (hasKey : Bool) (field : GenField)
    (outcome : AIOutcome) (s : GenState) (h : s.isGenerating = true) :
    generateAIText hasKey field outcome s = (s, false) := by
  unfold generateAIText
  simp [h]

/-- Claim C9 witness: a concrete in-flight state is untouched. -/
theorem generateAIText_noop_while_generating_witness :
    generateAIText true GenField.description (AIOutcome.ok ("drafted"))
      ⟨true, "", "", ""⟩ = (⟨true, "", "", ""⟩, false) :=
  generateAIText_noop_while_generating true GenField.description
    (AIOutcome.ok ("drafted")) ⟨true, "", "", ""⟩ rfl

/-- Claim C5: `updateVisit` never raises — for every input and store
outcome the call returns normally, and it returns the null sentinel
whenever a required parameter is missing or the store call failed. -/
theorem updateVisit_never_raises (userId appId : String)
    (store : Except JsError VisitRow) :
    (∃ v, updateVisit userId appId store = Except.ok v) ∧
    (userId = "" ∨ appId = "" → updateVisit userId appId store = Except.ok none) ∧
    (∀ e, store = Except.error e → updateVisit userId appId store = Except.ok none) := by
  unfold updateVisit
  refine ⟨?_, ?_, ?_⟩
  · by_cases h : userId = "" || appId = ""
    · exact ⟨none, by rw [if_pos h]⟩
    · rw [if_neg h]
      cases store with
      | ok d => exact ⟨some d, rfl⟩
      | error e => exact ⟨none, rfl⟩
  · intro h
    have hb : (userId = "" || appId = "") = true := by
      rcases h with h | h <;> simp [h]
    rw [if_pos hb]
  · intro e he
    subst he
    by_cases h : userId = "" || appId = ""
    · rw [if_pos h]
    · rw [if_neg h]

/-- Claim C5 witness: a failing store call yields the null sentinel, not an
error. -/
theorem updateVisit_never_raises_witness :
    updateVisit ("user-1") APP_ID (Except.error ⟨"boom"⟩) = Except.ok none :=
  (updateVisit_never_raises ("user-1") APP_ID (Except.error ⟨"boom"⟩)).2.2
    ⟨"boom"⟩ rfl

end QRGen

namespace QRGen

/-- Claim C8: for a rasterized image strictly wider than tall, the PDF
placement uses the full margin-bounded width of 7.5 inches (8.5 minus two
0.5-inch margins), scales the height by the aspect ratio, and centers the
image on the 8.5×11 page. -/
theorem pdfPlacement_wide_image (imgWidth imgHeight : ℚ)
    (hpos : 0 < imgHeight) (hwide : imgHeight < imgWidth) :
    (pdfPlacement imgWidth imgHeight).w = 8.5 - 2 * 0.5 ∧
    (pdfPlacement imgWidth imgHeight).h =
      (pdfPlacement imgWidth imgHeight).w / (imgWidth / imgHeight) ∧
    (pdfPlacement imgWidth imgHeight).x =
      (8.5 - (pdfPlacement imgWidth imgHeight).w) / 2 ∧
    (pdfPlacement imgWidth imgHeight).y =
      (11 - (pdfPlacement imgWidth imgHeight).h) / 2 := by
  have har : 1 < imgWidth / imgHeight := (one_lt_div hpos).mpr hwide
  have hlt : (8.5 - 2 * 0.5 : ℚ) / (imgWidth / imgHeight) < 8.5 - 2 * 0.5 :=
    div_lt_self (by norm_num) har
  have hcap : ¬ ((11 : ℚ) - 2 * 0.5 < (8.5 - 2 * 0.5) / (imgWidth / imgHeight)) :=
    not_lt.mpr (le_of_lt (lt_trans hlt (by norm_num)))
  unfold pdfPlacement
  simp only [if_neg hcap]
  exact ⟨trivial, trivial, trivial, trivial⟩

/-- Claim C8 witness at a 2×1 image. -/
theorem pdfPlacement_wide_image_witness :
    (0 : ℚ) < 1 ∧ (1 : ℚ) < 2 ∧
    ((pdfPlacement 2 1).w = 8.5 - 2 * 0.5 ∧
     (pdfPlacement 2 1).h = (pdfPlacement 2 1).w / (2 / 1) ∧
     (pdfPlacement 2 1).x = (8.5 - (pdfPlacement 2 1).w) / 2 ∧
     (pdfPlacement 2 1).y = (11 - (pdfPlacement 2 1).h) / 2) :=
  ⟨zero_lt_one, one_lt_two, pdfPlacement_wide_image 2 1 zero_lt_one one_lt_two⟩

/-- Claim C7: a file that is not an image MIME type, exceeds 5 MB, or has a
natural dimension below 100 or above 2000 pixels is rejected with an error
message and the logo callback is never invoked; the 500×500 image/png file
of 1 MB is accepted and the callback receives the non-null data-URL. -/
theorem processImage_rejects_and_accepts (f : ImgFile) (dataUrl : String)
    (hbad : (("image/").data.isPrefixOf f.type.data) = false ∨
      5 * 1024 * 1024 < f.size ∨ f.width < 100 ∨ f.height < 100 ∨
      2000 < f.width ∨ 2000 < f.height) :
    ((∃ msg, processImage f dataUrl = ProcessOutcome.rejected msg) ∧
     logoCallback (processImage f dataUrl) = none) ∧
    processImage ⟨"image/png", 1024 * 1024, 500, 500, true⟩ dataUrl =
      ProcessOutcome.accepted dataUrl := by
  constructor
  · have hrej : ∃ msg, processImage f dataUrl = ProcessOutcome.rejected msg := by
      unfold processImage
      by_cases h1 : (("image/").data.isPrefixOf f.type.data) = false
      · rw [if_pos h1]; exact ⟨_, rfl⟩
      · rw [if_neg h1]
        by_cases h2 : 5 * 1024 * 1024 < f.size
        · rw [if_pos h2]; exact ⟨_, rfl⟩
        · rw [if_neg h2]
          have hdim : f.width < 100 ∨ f.height < 100 ∨ 2000 < f.width ∨
              2000 < f.height := by
            rcases hbad with hb | hb | hb | hb | hb | hb
            · exact absurd hb h1
            · exact absurd hb h2
            · exact Or.inl hb
            · exact Or.inr (Or.inl hb)
            · exact Or.inr (Or.inr (Or.inl hb))
            · exact Or.inr (Or.inr (Or.inr hb))
          have hv := validateImage_bad_dims f hdim
          rcases hval : validateImage f with ⟨b, msg⟩
          rw [hval] at hv
          have hb : b = false := hv
          subst hb
          exact ⟨msg, rfl⟩
    obtain ⟨m, hm⟩ := hrej
    exact ⟨⟨m, hm⟩, by rw [hm]; rfl⟩
  · rfl

/-- Claim C7 witness: a 50×50 PNG is rejected with no callback, while the
500×500 PNG of 1 MB is accepted. -/
theorem processImage_rejects_and_accepts_witness :
    (50 : Nat) < 100 ∧
    ((∃ msg, processImage ⟨"image/png", 1024, 50, 50, true⟩ ("d") =
        ProcessOutcome.rejected msg) ∧
     logoCallback (processImage ⟨"image/png", 1024, 50, 50, true⟩ ("d")) = none) ∧
    processImage ⟨"image/png", 1024 * 1024, 500, 500, true⟩ ("d") =
      ProcessOutcome.accepted ("d") := by
  have h := processImage_rejects_and_accepts ⟨"image/png", 1024, 50, 50, true⟩ ("d")
    (Or.inr (Or.inr (Or.inl (by decide))))
  exact ⟨by decide, h.1, h.2⟩

/-- Claim C1: a save whose email exactly matches an existing row inserts no
new row, returns the existing user's identity with the generator app id
appended when absent, and when the app id is already present returns the
existing row unchanged with no update issued (store state untouched). -/
theorem saveUser_existing_email (input : SaveInput) (db : DB) (now : String)
    (u : UserRow)
    (hfind : db.users.find? (fun r => r.email == input.email) = some u) :
    ((saveUser input db now).db.users.length = db.users.length ∧
     (saveUser input db now).user.id = u.id) ∧
    (saveUser input db now).user.app_ids =
      (if APP_ID ∈ u.app_ids then u.app_ids else u.app_ids ++ [APP_ID]) ∧
    (APP_ID ∈ u.app_ids →
      (saveUser input db now).user = u ∧ (saveUser input db now).db = db) := by
  unfold saveUser
  rw [hfind]
  by_cases hmem : APP_ID ∈ u.app_ids <;> simp [hmem]

/-- Claim C1 witness: re-submitting `rowAmy`'s email leaves the store
unchanged and returns her row. -/
theorem saveUser_existing_email_witness :
    dbAmy.users.find? (fun r => r.email == inputAmy.email) = some rowAmy ∧
    (((saveUser inputAmy dbAmy tNow).db.users.length = dbAmy.users.length ∧
      (saveUser inputAmy dbAmy tNow).user.id = rowAmy.id) ∧
     (saveUser inputAmy dbAmy tNow).user.app_ids =
       (if APP_ID ∈ rowAmy.app_ids then rowAmy.app_ids
        else rowAmy.app_ids ++ [APP_ID]) ∧
     (APP_ID ∈ rowAmy.app_ids →
       (saveUser inputAmy dbAmy tNow).user = rowAmy ∧
       (saveUser inputAmy dbAmy tNow).db = dbAmy)) :=
  ⟨by decide, saveUser_existing_email inputAmy dbAmy tNow rowAmy (by decide)⟩

/-- Claim C3 counterexample: the save of `inputAmy` matches the existing
`rowAmy` and completes successfully, yet no visit upsert is attempted and
the visits table stays empty — the visit update is reached only on the
insert path. -/
theorem saveUser_existing_email_skips_visit :
    (dbAmy.users.find? (fun r => r.email == inputAmy.email)).isSome = true ∧
    (saveUser inputAmy dbAmy tNow).visitAttempted = false ∧
    (saveUser inputAmy dbAmy tNow).db.visits = [] := by decide

/-- Claim C3 (amended): the visit upsert keyed by (user id, generator app
id) is attempted exactly when the email matched no existing row; on that
insert path the visits table afterwards holds a row keyed by the new
user's id and the generator app id. -/
theorem saveUser_visit_on_insert_only (input : SaveInput) (db : DB)
    (now : String) :
    ((saveUser input db now).visitAttempted = true ↔
      db.users.find? (fun r => r.email == input.email) = none) ∧
    (db.users.find? (fun r => r.email == input.email) = none →
      ((saveUser input db now).db.visits.any
        (fun v => v.user_id == db.nextId && v.app_id == APP_ID)) = true) := by
  rcases hf : db.users.find? (fun r => r.email == input.email) with _ | u
  · constructor
    · unfold saveUser
      rw [hf]
      simp
    · intro _
      unfold saveUser
      rw [hf]
      exact upsertVisit_any_key db.nextId APP_ID now db.visits
  · constructor
    · unfold saveUser
      rw [hf]
      by_cases hmem : APP_ID ∈ u.app_ids <;> simp [hmem]
    · intro h
      rw [hf] at h
      cases h

/-- Claim C3 (amended) witness: a fresh email takes the insert path and the
visit row is recorded. -/
theorem saveUser_visit_on_insert_only_witness :
    dbAmy.users.find? (fun r => r.email == inputDana.email) = none ∧
    (saveUser inputDana dbAmy tNow).visitAttempted = true ∧
    ((saveUser inputDana dbAmy tNow).db.visits.any
      (fun v => v.user_id == dbAmy.nextId && v.app_id == APP_ID)) = true :=
  ⟨by decide,
   (saveUser_visit_on_insert_only inputDana dbAmy tNow).1.mpr (by decide),
   (saveUser_visit_on_insert_only inputDana dbAmy tNow).2 (by decide)⟩

/-- Claim C4 counterexample: `rowBob` already lists the generator app id,
so saving a submission with a non-empty name and organization leaves the
row unchanged — the non-empty incoming fields are not merged. -/
theorem saveUser_appid_present_no_merge :
    inputBob.organization = "New Org" ∧ inputBob.name = "New Name" ∧
    (saveUser inputBob dbBob tNow).user.organization = none ∧
    (saveUser inputBob dbBob tNow).user.name = "Old Name" := by decide

/-- Claim C4 (amended): when the email matches an existing row, each
non-empty incoming field is merged — and blank fields left unmodified —
only on the branch where the generator app id was absent; when the app id
is already present the existing row is returned as is, whatever the
incoming fields. -/
theorem saveUser_merge_only_when_appid_absent (input : SaveInput) (db : DB)
    (now : String) (u : UserRow)
    (hfind : db.users.find? (fun r => r.email == input.email) = some u) :
    (APP_ID ∉ u.app_ids →
      (saveUser input db now).user.name =
        (if input.name = "" then u.name else input.name) ∧
      (saveUser input db now).user.organization =
        (if input.organization = "" then u.organization
         else some input.organization) ∧
      (saveUser input db now).user.ein =
        (if input.ein = "" then u.ein else some input.ein) ∧
      (saveUser input db now).user.email = u.email) ∧
    (APP_ID ∈ u.app_ids → (saveUser input db now).user = u) := by
  unfold saveUser
  rw [hfind]
  by_cases hmem : APP_ID ∈ u.app_ids <;> simp [hmem]

/-- Claim C4 (amended) witness: `rowCal` lacks the generator app id, so the
non-empty name and EIN are merged while the blank organization is kept. -/
theorem saveUser_merge_only_when_appid_absent_witness :
    dbCal.users.find? (fun r => r.email == inputCal.email) = some rowCal ∧
    APP_ID ∉ rowCal.app_ids ∧
    ((saveUser inputCal dbCal tNow).user.name =
      (if inputCal.name = "" then rowCal.name else inputCal.name) ∧
     (saveUser inputCal dbCal tNow).user.organization =
      (if inputCal.organization = "" then rowCal.organization
       else some inputCal.organization) ∧
     (saveUser inputCal dbCal tNow).user.ein =
      (if inputCal.ein = "" then rowCal.ein else some inputCal.ein) ∧
     (saveUser inputCal dbCal tNow).user.email = rowCal.email) :=
  ⟨by decide, by decide,
   (saveUser_merge_only_when_appid_absent inputCal dbCal tNow rowCal
     (by decide)).1 (by decide)⟩

end QRGen
